import Mathlib

/-!
Verification of the UJS-NetworkSimulation protocol core.

The definitions below are a shallow embedding of the two protocol
implementations of the repository:

  - src/exp2/reliable_transfer_error_model.cc: the stop-and-wait
    sender (ReliableClient), the receiver (ReliableServer) and the
    9-byte wire header (ReliableHeader);
  - src/unnamed/part_000 (lab3_task1.cc): the rate-controlled sender
    (EnhancedUdpClient) with its simulated congestion controller, and
    the receiver (EnhancedUdpServer) with its 16-byte CustomHeader.

Machine integers (uint32_t) are modelled as Nat with explicit wrapping
via u32 at every store that the C++ computes in 32-bit arithmetic.
Byte buffers are lists of Nat; reads through an out-of-range index are
modelled as Option failure (in ns-3 a Buffer::Iterator read past the
end is an assertion failure, not a recoverable error).  The double
valued fields of the C++ (the send interval derived from 1.0 / cwnd,
and the per-packet delay accumulator) are modelled as exact rationals
where a claim needs the field to exist, and are never the subject of a
claim; the global totalDelay accumulator is omitted for that reason.
-/

/-- Wrap-around of C++ uint32_t arithmetic. -/
def u32 (n : Nat) : Nat := n % 4294967296

/-- The wire header of reliable_transfer_error_model.cc
(class ReliableHeader): a 32-bit sequence number, a 32-bit ack number
and a boolean ack flag. -/
structure ReliableHeader where
  sequenceNumber : Nat
  ackNumber : Nat
  isAck : Bool
deriving DecidableEq, Repr

/-- Big-endian bytes of a 32-bit value, as written by
Buffer::Iterator::WriteHtonU32. -/
def writeU32be (n : Nat) : List Nat :=
  [n / 16777216 % 256, n / 65536 % 256, n / 256 % 256, n % 256]

/-- ReliableHeader::Serialize: sequence number (4 bytes big-endian),
ack number (4 bytes big-endian), ack flag (1 byte, 1 or 0). -/
def ReliableHeader.serialize (h : ReliableHeader) : List Nat :=
  writeU32be h.sequenceNumber ++ writeU32be h.ackNumber ++
    [if h.isAck then 1 else 0]

/-- Buffer::Iterator::ReadNtohU32 starting at byte index i: reads four
bytes big-endian; none when any of the four reads is past the end of
the buffer (in ns-3 an assertion failure). -/
def readNtohU32 (bytes : List Nat) (i : Nat) : Option Nat := do
  let b0 ← bytes[i]?
  let b1 ← bytes[i + 1]?
  let b2 ← bytes[i + 2]?
  let b3 ← bytes[i + 3]?
  pure (((b0 * 256 + b1) * 256 + b2) * 256 + b3)

/-- ReliableHeader::Deserialize: unconditionally reads 4 + 4 + 1 bytes
from the start of the buffer.  The C++ performs no length check; none
models a Buffer::Iterator read past the end of the buffer, which in
ns-3 is an assertion failure (an abort), not a recoverable decode
error. -/
def ReliableHeader.deserialize (bytes : List Nat) : Option ReliableHeader := do
  let seq ← readNtohU32 bytes 0
  let ack ← readNtohU32 bytes 4
  let flag ← bytes[8]?
  pure ⟨seq, ack, flag == 1⟩

/-- A transmitted packet as assembled by the client: payload of the
configured size, then AddHeader prepends the 9 header bytes. -/
def encodePacket (h : ReliableHeader) (payload : List Nat) : List Nat :=
  h.serialize ++ payload

/-- Receiving side: RemoveHeader deserializes the 9 header bytes and
strips them, leaving the payload. -/
def decodePacket (bytes : List Nat) : Option (ReliableHeader × List Nat) := do
  let h ← ReliableHeader.deserialize bytes
  pure (h, bytes.drop 9)

/-- A packet handed to the socket: its header and the payload length
in bytes (the payload content of the stop-and-wait client is
zero-filled and never inspected). -/
structure TxPacket where
  header : ReliableHeader
  payloadLen : Nat
deriving DecidableEq, Repr

/-- State of ReliableClient (the stop-and-wait sender).  timerArmed /
timerSeq model the pending m_timerEvent and the sequence number it was
scheduled with; sendScheduled models a pending Simulator::Schedule of
SendPacket. -/
structure RClient where
  nextSequence : Nat
  totalPacketsSent : Nat
  retransmissions : Nat
  totalBytesSent : Nat
  waitingForAck : Bool
  pendingAckSequence : Nat
  timerArmed : Bool
  timerSeq : Nat
  sendScheduled : Bool
  maxPackets : Nat
  packetSize : Nat
deriving DecidableEq, Repr

/-- ReliableClient construction plus StartApplication: counters zero,
not waiting, and the first SendPacket scheduled. -/
def initR (maxPackets packetSize : Nat) : RClient :=
  { nextSequence := 0
    totalPacketsSent := 0
    retransmissions := 0
    totalBytesSent := 0
    waitingForAck := false
    pendingAckSequence := 0
    timerArmed := false
    timerSeq := 0
    sendScheduled := true
    maxPackets := maxPackets
    packetSize := packetSize }

/-- ReliableClient::SendPacket.  The guard is on m_nextSequence (the
next fresh sequence number), not on m_totalPacketsSent.  On a send the
packet is payload plus the 9-byte header, the ACK timer is armed for
the fresh sequence number and the client waits for its ack.  The
return value of SendTo is ignored by the C++, so the transition does
not depend on the channel outcome. -/
def RClient.sendPacket (s : RClient) : RClient × Option TxPacket :=
  if s.maxPackets ≤ s.nextSequence then
    (s, none)
  else
    ({ s with
        totalPacketsSent := u32 (s.totalPacketsSent + 1)
        totalBytesSent := u32 (s.totalBytesSent + (s.packetSize + 9))
        waitingForAck := true
        pendingAckSequence := s.nextSequence
        timerArmed := true
        timerSeq := s.nextSequence
        nextSequence := u32 (s.nextSequence + 1) },
     some ⟨⟨s.nextSequence, 0, false⟩, s.packetSize⟩)

/-- ReliableClient::HandleRead for one received packet.  Only ack
packets matching the currently pending sequence number act: the timer
is cancelled, waiting ends and the next SendPacket is scheduled after
m_interval.  Everything else falls through with no effect. -/
def RClient.handleRead (s : RClient) (h : ReliableHeader) : RClient :=
  if h.isAck then
    if s.waitingForAck && (h.ackNumber == s.pendingAckSequence) then
      { s with
          timerArmed := false
          waitingForAck := false
          sendScheduled := true }
    else s
  else s

/-- ReliableClient::TimeoutHandler seq.  Acts only when still waiting
for exactly this sequence number: retransmits the same sequence number
and re-arms the timer.  A stale fire is a no-op. -/
def RClient.timeoutHandler (s : RClient) (seq : Nat) : RClient × Option TxPacket :=
  if s.waitingForAck && (seq == s.pendingAckSequence) then
    ({ s with
        retransmissions := u32 (s.retransmissions + 1)
        totalPacketsSent := u32 (s.totalPacketsSent + 1)
        totalBytesSent := u32 (s.totalBytesSent + (s.packetSize + 9))
        timerArmed := true
        timerSeq := seq },
     some ⟨⟨seq, 0, false⟩, s.packetSize⟩)
  else (s, none)

/-- Events that the single-threaded ns-3 scheduler can deliver to the
stop-and-wait client: a scheduled SendPacket fires, the armed timeout
fires with the sequence number it was scheduled with, or a packet
(possibly a duplicate, stale or forged one) is delivered to
HandleRead. -/
inductive CEvent where
  | fireSend : CEvent
  | fireTimeout : Nat → CEvent
  | recvPacket : ReliableHeader → CEvent
deriving DecidableEq, Repr

/-- One scheduler step of the stop-and-wait client.  A scheduled event
is consumed when it fires; a fireSend with no pending schedule and a
fireTimeout that does not match the armed timer do not dispatch (the
ns-3 simulator never runs a cancelled or absent event). -/
def cstep (e : CEvent) (s : RClient) : RClient × Option TxPacket :=
  match e with
  | .fireSend =>
      if s.sendScheduled then
        RClient.sendPacket { s with sendScheduled := false }
      else (s, none)
  | .fireTimeout seq =>
      if s.timerArmed && (seq == s.timerSeq) then
        RClient.timeoutHandler { s with timerArmed := false } seq
      else (s, none)
  | .recvPacket h => (s.handleRead h, none)

/-- Run of the client under a sequence of scheduler events. -/
def runC : List CEvent → RClient → RClient
  | [], s => s
  | e :: tr, s => runC tr (cstep e s).1

/-- State of ReliableServer (the receiver). -/
structure RServer where
  expectedSequence : Nat
  totalPacketsReceived : Nat
  totalBytesReceived : Nat
deriving DecidableEq, Repr

/-- ReliableServer construction: everything zero. -/
def RServer.start : RServer := ⟨0, 0, 0⟩

/-- ReliableServer::HandleRead for one received packet of the given
payload length (the size after RemoveHeader).  The byte counter is
incremented before the ack/sequence checks, hence unconditionally.  An
in-order data packet bumps the counters, advances the expected
sequence number and emits an ack (whose sequence field keeps its
default 0); anything else emits nothing. -/
def RServer.handleRead (s : RServer) (h : ReliableHeader) (payloadLen : Nat) :
    RServer × Option ReliableHeader :=
  let s := { s with totalBytesReceived := u32 (s.totalBytesReceived + payloadLen) }
  if !h.isAck then
    if h.sequenceNumber == s.expectedSequence then
      ({ s with
          totalPacketsReceived := u32 (s.totalPacketsReceived + 1)
          expectedSequence := u32 (s.expectedSequence + 1) },
       some ⟨0, h.sequenceNumber, true⟩)
    else (s, none)
  else (s, none)

/-- One synchronous round of the error-free scenario used by the
scenario claims: the scheduled send fires; if a packet goes out it is
delivered to the server; if the server emits an ack it is delivered
back to the client and counted.  With the scenario parameters
(link delay 2 ms each way, timeout 0.5 s, interval 1.0 s and no
channel errors) each ack is delivered long before the timeout would
fire, so the timeout event never runs and this delivery order is the
one the ns-3 scheduler produces. -/
def feRound : RClient × RServer × Nat → RClient × RServer × Nat
  | (cs, ss, acks) =>
    match cstep .fireSend cs with
    | (cs1, some pkt) =>
        match ss.handleRead pkt.header pkt.payloadLen with
        | (ss1, some ackH) => ((cstep (.recvPacket ackH) cs1).1, ss1, acks + 1)
        | (ss1, none) => (cs1, ss1, acks)
    | (cs1, none) => (cs1, ss, acks)

/-- n rounds of the error-free scenario. -/
def feRun : Nat → RClient × RServer × Nat → RClient × RServer × Nat
  | 0, st => st
  | n + 1, st => feRun n (feRound st)

/-- State of EnhancedUdpClient (the rate-controlled sender of
lab3_task1.cc) together with the global counter totalLostPackets that
its send path mutates.  The interval is the double-valued m_interval
modelled as an exact rational; sendScheduled models a pending
Simulator::Schedule of SendPacket (ScheduleTransmit). -/
structure ClientState where
  packetsSent : Nat
  sequenceNumber : Nat
  cwnd : Nat
  ssthresh : Nat
  congestionAvoidance : Bool
  interval : Rat
  lostPackets : Nat
  sendScheduled : Bool
  maxPackets : Nat
  packetSize : Nat
deriving DecidableEq, Repr

/-- EnhancedUdpClient construction plus StartApplication with the
reference tuning: cwnd 4, ssthresh 32, slow start, interval 0.05 s,
first send scheduled. -/
def einit (maxPackets packetSize : Nat) : ClientState :=
  { packetsSent := 0
    sequenceNumber := 0
    cwnd := 4
    ssthresh := 32
    congestionAvoidance := false
    interval := 1 / 20
    lostPackets := 0
    sendScheduled := true
    maxPackets := maxPackets
    packetSize := packetSize }

/-- First part of EnhancedUdpClient::CongestionControl: window growth.
In slow start, cwnd grows by 2 capped at ssthresh and the phase flips
to congestion avoidance once cwnd reaches ssthresh; in congestion
avoidance, cwnd grows by 1. -/
def windowGrowth (s : ClientState) : ClientState :=
  if !s.congestionAvoidance then
    let c := min (u32 (s.cwnd + 2)) s.ssthresh
    if s.ssthresh ≤ c then
      { s with cwnd := c, congestionAvoidance := true }
    else
      { s with cwnd := c }
  else
    { s with cwnd := u32 (s.cwnd + 1) }

/-- Second part of EnhancedUdpClient::CongestionControl: the simulated
loss event.  When the sent-packet count is a positive multiple of 40,
ssthresh becomes max(cwnd / 2, 4), cwnd resets to 4, the phase returns
to slow start and two lost-packet credits are recorded in the global
statistics. -/
def lossCheck (s : ClientState) : ClientState :=
  if (s.packetsSent % 40 == 0) && decide (0 < s.packetsSent) then
    { s with
        ssthresh := max (s.cwnd / 2) 4
        cwnd := 4
        congestionAvoidance := false
        lostPackets := u32 (s.lostPackets + 2) }
  else s

/-- Last part of EnhancedUdpClient::CongestionControl: the send
interval becomes max(1.0 / cwnd, 0.001), modelled in exact rational
arithmetic. -/
def setIntervalQ (s : ClientState) : ClientState :=
  { s with interval := max (1 / (s.cwnd : Rat)) (1 / 1000) }

/-- EnhancedUdpClient::CongestionControl: growth, then the simulated
loss check, then the interval update, in the order of the C++. -/
def congestionControl (s : ClientState) : ClientState :=
  setIntervalQ (lossCheck (windowGrowth s))

/-- EnhancedUdpClient::SendPacket, parametrised by the channel outcome
(Socket::Send returning a positive byte count or not).  The sequence
number is consumed before the send in either case.  On success the
sent counter advances, CongestionControl runs on every 15th successful
send, and the next send is scheduled only while packets remain.  On
failure only the global lost counter is incremented and, because the
success branch alone calls ScheduleTransmit, no further send is
scheduled. -/
def ClientState.sendPacket (ok : Bool) (s : ClientState) : ClientState :=
  if s.maxPackets ≤ s.packetsSent then s
  else
    let s := { s with sequenceNumber := u32 (s.sequenceNumber + 1) }
    if ok then
      let s := { s with packetsSent := u32 (s.packetsSent + 1) }
      let s := if s.packetsSent % 15 == 0 then congestionControl s else s
      if s.packetsSent < s.maxPackets then
        { s with sendScheduled := true }
      else
        { s with sendScheduled := false }
    else
      { s with lostPackets := u32 (s.lostPackets + 1), sendScheduled := false }

/-- One scheduler step of the rate-controlled client: the scheduled
SendPacket fires (consuming the schedule) with the given channel
outcome; with nothing scheduled, nothing happens. -/
def estep (ok : Bool) (s : ClientState) : ClientState :=
  if s.sendScheduled then
    ClientState.sendPacket ok { s with sendScheduled := false }
  else s

/-- Run of the rate-controlled client under a list of channel
outcomes. -/
def erun : List Bool → ClientState → ClientState
  | [], s => s
  | ok :: rest, s => erun rest (estep ok s)

/-- The state of the rate-controlled client with the reference tuning
after n scheduler steps on a loss-free channel. -/
def iterSuccess (maxPackets packetSize : Nat) : Nat → ClientState
  | 0 => einit maxPackets packetSize
  | n + 1 => estep true (iterSuccess maxPackets packetSize n)

/-- The global statistics counters of lab3_task1.cc that the receiver
mutates (the double-valued delay accumulator is omitted; no claim
concerns it). -/
structure GlobalStats where
  totalReceivedPackets : Nat
  totalBytesReceived : Nat
deriving DecidableEq, Repr

/-- EnhancedUdpServer::HandleRead for one received packet of the given
total length: packets shorter than the 16-byte CustomHeader
(4-byte sequence number, 8-byte send time, 4-byte payload size) are
logged and dropped without any read past the received bytes; longer
packets bump the received counters. -/
def enhancedHandleRead (g : GlobalStats) (packetLen : Nat) : GlobalStats :=
  if 16 ≤ packetLen then
    { g with
        totalReceivedPackets := u32 (g.totalReceivedPackets + 1)
        totalBytesReceived := u32 (g.totalBytesReceived + packetLen) }
  else g

/-! ## Codec claims -/

/-- Claim C3: for every valid segment (a data segment with any
sequence number and payload, or an ack segment with any ack number,
both fields being 32-bit values), decoding the bytes produced by
encoding the segment yields the segment back: header and payload are
recovered exactly. -/
theorem c3_codec_roundtrip (h : ReliableHeader) (payload : List Nat)
    (hs : h.sequenceNumber < 4294967296) (ha : h.ackNumber < 4294967296) :
    decodePacket (encodePacket h payload) = some (h, payload) := by
  obtain ⟨n, a, f⟩ := h
  simp only [encodePacket, ReliableHeader.serialize, writeU32be, List.cons_append,
    List.nil_append, decodePacket, ReliableHeader.deserialize, readNtohU32]
  simp only [List.getElem?_cons_zero, List.getElem?_cons_succ, Option.pure_def,
    Option.bind_eq_bind, Option.some_bind, List.drop_succ_cons, List.drop_zero]
  simp only [ReliableHeader.mk.injEq, Option.some.injEq, Prod.mk.injEq]
  refine ⟨⟨?_, ?_, ?_⟩, trivial⟩
  · have hn : n < 4294967296 := hs
    omega
  · have hn : a < 4294967296 := ha
    omega
  · cases f <;> rfl

/-- Witness for C3 at a concrete segment. -/
theorem c3_codec_roundtrip_witness :
    decodePacket (encodePacket ⟨7, 3, true⟩ [1, 2, 9]) = some (⟨7, 3, true⟩, [1, 2, 9]) :=
  c3_codec_roundtrip ⟨7, 3, true⟩ [1, 2, 9] (by decide) (by decide)

/-- Claim C4, counterexample: decoding an 8-byte input makes
ReliableHeader::Deserialize read past the end of the buffer (the none
of the model); the C++ performs no length check, so there is no
graceful MalformedSegment failure and the read is out of bounds,
contrary to the claim. -/
theorem c4_counterexample_deserialize_reads_past_end :
    ReliableHeader.deserialize (List.replicate 8 0) = none ∧
    (List.replicate 8 0).length < 9 := by decide

/-- Claim C4 as amended: ReliableHeader::Deserialize reads 9 bytes
unconditionally, so on every input shorter than 9 bytes it attempts an
out-of-bounds read (none); on every input of at least 9 bytes all its
reads stay inside the buffer and a header is produced.  The graceful
short-packet check of the repository lives in
EnhancedUdpServer::HandleRead, whose header is 16 bytes: packets
shorter than 16 bytes are dropped with the statistics unchanged. -/
theorem c4_truncation_behaviour :
    (∀ (bytes : List Nat), bytes.length < 9 →
        ReliableHeader.deserialize bytes = none) ∧
    (∀ (bytes : List Nat), 9 ≤ bytes.length →
        ∃ h, ReliableHeader.deserialize bytes = some h) ∧
    (∀ (g : GlobalStats) (packetLen : Nat), packetLen < 16 →
        enhancedHandleRead g packetLen = g) := by
  refine ⟨?_, ?_, ?_⟩
  · intro bytes hlen
    have h8 : bytes[8]? = none := by
      rw [List.getElem?_eq_none]
      omega
    unfold ReliableHeader.deserialize
    cases h0 : readNtohU32 bytes 0 <;> cases h4 : readNtohU32 bytes 4 <;>
      simp [h0, h4, h8]
  · intro bytes hlen
    rcases bytes with _ | ⟨b0, _ | ⟨b1, _ | ⟨b2, _ | ⟨b3, _ | ⟨b4, _ | ⟨b5,
      _ | ⟨b6, _ | ⟨b7, _ | ⟨b8, rest⟩⟩⟩⟩⟩⟩⟩⟩⟩ <;>
      simp only [List.length_nil, List.length_cons] at hlen <;> try omega
    refine ⟨⟨((b0 * 256 + b1) * 256 + b2) * 256 + b3,
      ((b4 * 256 + b5) * 256 + b6) * 256 + b7, b8 == 1⟩, ?_⟩
    simp only [ReliableHeader.deserialize, readNtohU32, List.getElem?_cons_zero,
      List.getElem?_cons_succ, Option.pure_def, Option.bind_eq_bind, Option.some_bind]
  · intro g packetLen hlen
    unfold enhancedHandleRead
    rw [if_neg (by omega)]

/-- Witness for the amended C4 at concrete inputs. -/
theorem c4_truncation_behaviour_witness :
    ReliableHeader.deserialize [1, 2] = none ∧
    enhancedHandleRead ⟨5, 7⟩ 15 = ⟨5, 7⟩ :=
  ⟨c4_truncation_behaviour.1 [1, 2] (by decide),
   c4_truncation_behaviour.2.2 ⟨5, 7⟩ 15 (by decide)⟩

/-! ## Receiver claims -/

/-- Claim C5, counterexample: a data segment whose sequence number (5)
differs from the expected one (0) still mutates the receiver: the
received-byte counter grows by the payload length, because
ReliableServer::HandleRead adds the packet size before any sequence
check; the claim says no receiver counter changes on a mismatch. -/
theorem c5_counterexample_mismatch_bumps_bytes :
    RServer.handleRead ⟨0, 0, 0⟩ ⟨5, 0, false⟩ 3 =
      ({ expectedSequence := 0, totalPacketsReceived := 0, totalBytesReceived := 3 },
       none) ∧
    (3 : Nat) ≠ 0 := by decide

/-- Claim C5 as amended: an in-order data segment increments the
received-packet counter, adds the payload length to the byte counter,
advances the expected sequence number by one and emits an ack carrying
the received sequence number; a mismatched data segment is dropped
without an ack and without touching the packet counter or the
expected-sequence cursor, but the received-byte counter still grows by
the payload length. -/
theorem c5_receiver_accept_and_drop (s : RServer) (h : ReliableHeader)
    (plen : Nat) (hAck : h.isAck = false) :
    (h.sequenceNumber = s.expectedSequence →
      RServer.handleRead s h plen =
        ({ expectedSequence := u32 (s.expectedSequence + 1)
           totalPacketsReceived := u32 (s.totalPacketsReceived + 1)
           totalBytesReceived := u32 (s.totalBytesReceived + plen) },
         some ⟨0, h.sequenceNumber, true⟩)) ∧
    (h.sequenceNumber ≠ s.expectedSequence →
      RServer.handleRead s h plen =
        ({ s with totalBytesReceived := u32 (s.totalBytesReceived + plen) }, none)) := by
  constructor <;> intro hseq <;> simp [RServer.handleRead, hAck, hseq]

/-- Witness for the amended C5: both branches at concrete inputs. -/
theorem c5_receiver_accept_and_drop_witness :
    RServer.handleRead ⟨4, 4, 100⟩ ⟨4, 0, false⟩ 8 =
      ({ expectedSequence := 5, totalPacketsReceived := 5, totalBytesReceived := 108 },
       some ⟨0, 4, true⟩) ∧
    RServer.handleRead ⟨4, 4, 100⟩ ⟨9, 0, false⟩ 8 =
      ({ expectedSequence := 4, totalPacketsReceived := 4, totalBytesReceived := 108 },
       none) :=
  ⟨(c5_receiver_accept_and_drop ⟨4, 4, 100⟩ ⟨4, 0, false⟩ 8 rfl).1 rfl,
   (c5_receiver_accept_and_drop ⟨4, 4, 100⟩ ⟨9, 0, false⟩ 8 rfl).2 (by decide)⟩

/-! ## Stale-event and frame claims on the stop-and-wait sender -/

/-- Claim C9: a stale timeout fire (sequence number not the pending
one, or nothing pending) and a stale ack (same mismatch) are
guaranteed no-ops of the respective handlers: the client state is
returned unchanged, nothing is transmitted, nothing is scheduled and
no error is produced. -/
theorem c9_stale_events_are_noops :
    (∀ (s : RClient) (seq : Nat),
        ¬(s.waitingForAck = true ∧ seq = s.pendingAckSequence) →
        RClient.timeoutHandler s seq = (s, none)) ∧
    (∀ (s : RClient) (h : ReliableHeader), h.isAck = true →
        ¬(s.waitingForAck = true ∧ h.ackNumber = s.pendingAckSequence) →
        RClient.handleRead s h = s) := by
  constructor
  · intro s seq hst
    unfold RClient.timeoutHandler
    rw [if_neg (by simpa [Bool.and_eq_true, beq_iff_eq] using hst)]
  · intro s h hAck hst
    unfold RClient.handleRead
    rw [if_pos hAck, if_neg (by simpa [Bool.and_eq_true, beq_iff_eq] using hst)]

/-- Witness for C9: a timeout fire and an ack arriving while nothing
is pending leave the freshly started client untouched. -/
theorem c9_stale_events_are_noops_witness :
    RClient.timeoutHandler (initR 5 100) 0 = (initR 5 100, none) ∧
    RClient.handleRead (initR 5 100) ⟨0, 7, true⟩ = initR 5 100 :=
  ⟨c9_stale_events_are_noops.1 (initR 5 100) 0 (by simp [initR]),
   c9_stale_events_are_noops.2 (initR 5 100) ⟨0, 7, true⟩ rfl (by simp [initR])⟩

/-- Claim C10: an incoming data (non-ack) segment delivered to the
stop-and-wait client leaves the whole client state unchanged (all
counters, the pending-ack state, the waiting flag, the armed timer and
the schedule) and transmits nothing in response. -/
theorem c10_sender_ignores_data_segments (s : RClient) (h : ReliableHeader)
    (hAck : h.isAck = false) :
    cstep (.recvPacket h) s = (s, none) := by
  simp [cstep, RClient.handleRead, hAck]

/-- Witness for C10 at a concrete state and segment. -/
theorem c10_sender_ignores_data_segments_witness :
    cstep (.recvPacket ⟨3, 0, false⟩) (initR 5 100) = (initR 5 100, none) :=
  c10_sender_ignores_data_segments (initR 5 100) ⟨3, 0, false⟩ rfl

/-! ## Send-guard claims (C2) -/

/-- Any scheduler event preserves the finished condition of the
stop-and-wait sender: once maxPackets fresh sequence numbers are
consumed, no event changes that. -/
theorem cstep_done_preserved (e : CEvent) (s : RClient)
    (h : s.maxPackets ≤ s.nextSequence) :
    (cstep e s).1.maxPackets ≤ (cstep e s).1.nextSequence := by
  cases e with
  | fireSend =>
    unfold cstep
    dsimp only
    split
    · unfold RClient.sendPacket
      split
      · exact h
      · rename_i hng
        exact absurd h hng
    · exact h
  | fireTimeout seq =>
    unfold cstep
    dsimp only
    split
    · unfold RClient.timeoutHandler
      split <;> exact h
    · exact h
  | recvPacket hdr =>
    unfold cstep RClient.handleRead
    dsimp only
    split
    · split <;> exact h
    · exact h

/-- The finished condition is preserved along any event trace. -/
theorem runC_done_preserved (tr : List CEvent) (s : RClient)
    (h : s.maxPackets ≤ s.nextSequence) :
    (runC tr s).maxPackets ≤ (runC tr s).nextSequence := by
  induction tr generalizing s with
  | nil => exact h
  | cons e tr ih => exact ih _ (cstep_done_preserved e s h)

/-- Claim C2, counterexample: with maxSegments = 2, after sending
sequence number 0 once and retransmitting it twice (totalPacketsSent
= 3 ≥ 2) and then receiving its ack, calling SendPacket transmits a
fresh data segment with sequence number 1 — the guard of the C++ is on
m_nextSequence, not on the total number of segments sent, so a send
with totalSent ≥ maxSegments is not a no-op and the sender is not
stopped. -/
theorem c2_counterexample_guard_not_on_totalSent :
    (runC [.fireSend, .fireTimeout 0, .fireTimeout 0, .recvPacket ⟨0, 0, true⟩]
        (initR 2 1024)).totalPacketsSent = 3 ∧
    2 ≤ 3 ∧
    (cstep .fireSend
        (runC [.fireSend, .fireTimeout 0, .fireTimeout 0, .recvPacket ⟨0, 0, true⟩]
          (initR 2 1024))).2 = some ⟨⟨1, 0, false⟩, 1024⟩ := by decide

/-- Claim C2 as amended: the guard is on nextSequence, the count of
fresh sequence numbers consumed.  Calling SendPacket when nextSequence
has reached maxSegments transmits nothing and changes no state, and
since no event can lower nextSequence or raise maxSegments, every
later SendPacket along any event trace is equally a no-op — a terminal
condition in that sense (retransmissions of the last outstanding
segment may still occur until its ack arrives). -/
theorem c2_send_guard_terminal (s : RClient) (h : s.maxPackets ≤ s.nextSequence)
    (tr : List CEvent) :
    (runC tr s).sendPacket = (runC tr s, none) := by
  have hd := runC_done_preserved tr s h
  unfold RClient.sendPacket
  split
  · rfl
  · rename_i hng
    exact absurd hd hng

/-- Witness for the amended C2: a finished client stays a no-op for
SendPacket immediately and after a further event. -/
theorem c2_send_guard_terminal_witness :
    (runC [] (initR 0 5)).sendPacket = (runC [] (initR 0 5), none) ∧
    (runC [CEvent.fireSend] (initR 0 5)).sendPacket =
      (runC [CEvent.fireSend] (initR 0 5), none) :=
  ⟨c2_send_guard_terminal (initR 0 5) (by decide) [],
   c2_send_guard_terminal (initR 0 5) (by decide) [CEvent.fireSend]⟩

/-! ## At-most-one-in-flight (C8) -/

/-- While the stop-and-wait client waits for an ack, no SendPacket is
scheduled; preserved by every scheduler event. -/
theorem cstep_waiting_not_scheduled (e : CEvent) (s : RClient)
    (h : s.waitingForAck = true → s.sendScheduled = false) :
    (cstep e s).1.waitingForAck = true → (cstep e s).1.sendScheduled = false := by
  cases e with
  | fireSend =>
    unfold cstep
    dsimp only
    split
    · unfold RClient.sendPacket
      split
      · intro _
        rfl
      · intro _
        rfl
    · exact h
  | fireTimeout seq =>
    unfold cstep
    dsimp only
    split
    · unfold RClient.timeoutHandler
      split
      · intro hw
        exact h hw
      · intro hw
        exact h hw
    · exact h
  | recvPacket hdr =>
    unfold cstep RClient.handleRead
    dsimp only
    split
    · split
      · intro hw
        exact absurd hw (by simp)
      · exact h
    · exact h

/-- The waiting-implies-unscheduled invariant holds in every state
reachable from a fresh client. -/
theorem runC_waiting_not_scheduled (m p : Nat) (tr : List CEvent) :
    (runC tr (initR m p)).waitingForAck = true →
    (runC tr (initR m p)).sendScheduled = false := by
  have base : ∀ s : RClient, (s.waitingForAck = true → s.sendScheduled = false) →
      ∀ tr2 : List CEvent,
        (runC tr2 s).waitingForAck = true → (runC tr2 s).sendScheduled = false := by
    intro s hs tr2
    induction tr2 generalizing s with
    | nil => exact hs
    | cons e tr2 ih => exact ih _ (cstep_waiting_not_scheduled e s hs)
  exact base (initR m p) (fun hw => absurd hw Bool.false_ne_true) tr

/-- Claim C8: at most one unacknowledged segment is outstanding.  In
every state reachable from a fresh stop-and-wait client in which the
client waits for an ack, any packet transmitted by the next scheduler
event — whatever it is — is a data retransmission of exactly the
pending sequence number, so between the send of a fresh sequence
number and its matching ack no segment with a different sequence
number is transmitted. -/
theorem c8_at_most_one_in_flight (m p : Nat) (tr : List CEvent) (e : CEvent)
    (pkt : TxPacket)
    (hw : (runC tr (initR m p)).waitingForAck = true)
    (hsome : (cstep e (runC tr (initR m p))).2 = some pkt) :
    pkt.header.isAck = false ∧
    pkt.header.sequenceNumber = (runC tr (initR m p)).pendingAckSequence := by
  have hsch : (runC tr (initR m p)).sendScheduled = false :=
    runC_waiting_not_scheduled m p tr hw
  cases e with
  | fireSend =>
    rw [show cstep .fireSend (runC tr (initR m p)) = (runC tr (initR m p), none) by
      unfold cstep
      rw [if_neg (by simp [hsch])]] at hsome
    exact absurd hsome (by simp)
  | fireTimeout seq =>
    unfold cstep at hsome
    dsimp only at hsome
    split at hsome
    · unfold RClient.timeoutHandler at hsome
      split at hsome
      · rename_i hg
        simp only [Bool.and_eq_true, beq_iff_eq] at hg
        obtain ⟨hgw, hgs⟩ := hg
        obtain rfl : pkt = ⟨⟨seq, 0, false⟩, (runC tr (initR m p)).packetSize⟩ :=
          (Option.some.injEq .. |>.mp hsome).symm
        exact ⟨rfl, hgs⟩
      · exact absurd hsome (by simp)
    · exact absurd hsome (by simp)
  | recvPacket hdr =>
    exact absurd hsome (by simp [cstep])

/-- Witness for C8: after the first send fires, the client waits for
sequence 0, and a timeout retransmission indeed carries the pending
sequence number. -/
theorem c8_at_most_one_in_flight_witness :
    (⟨⟨0, 0, false⟩, 1024⟩ : TxPacket).header.isAck = false ∧
    (⟨⟨0, 0, false⟩, 1024⟩ : TxPacket).header.sequenceNumber =
      (runC [CEvent.fireSend] (initR 10 1024)).pendingAckSequence :=
  c8_at_most_one_in_flight 10 1024 [CEvent.fireSend] (CEvent.fireTimeout 0)
    ⟨⟨0, 0, false⟩, 1024⟩ (by decide) (by decide)

/-! ## Error-free scenario (C6) -/

/-- Claim C6, counterexample: in the error-free scenario with
maxSegments = 10 and packetSize = 1024, totalBytesSent is 10330 =
10 x (1024 + 9) and not 10 x 1024 — every transmitted packet counts
its 9 header bytes, because the C++ adds the header before reading the
packet size into the counter. -/
theorem c6_counterexample_bytes_include_header :
    (feRun 10 (initR 10 1024, RServer.start, 0)).1.totalBytesSent = 10330 ∧
    (10330 : Nat) ≠ 10 * 1024 := by decide

/-- Claim C6 as amended: in the error-free stop-and-wait scenario with
maxSegments = 10 and packetSize = 1024 (each ack delivered well before
the 0.5 s timeout, so the timer never fires), exactly 10 data segments
are sent, exactly 10 acks are received by the client, the
retransmission counter stays 0, the server accepts all 10 segments in
order, and totalBytesSent is 10 x (packetSize + 9), the 9-byte header
included in every transmitted packet. -/
theorem c6_error_free_scenario :
    (feRun 10 (initR 10 1024, RServer.start, 0)).1.totalPacketsSent = 10 ∧
    (feRun 10 (initR 10 1024, RServer.start, 0)).2.2 = 10 ∧
    (feRun 10 (initR 10 1024, RServer.start, 0)).1.retransmissions = 0 ∧
    (feRun 10 (initR 10 1024, RServer.start, 0)).1.totalBytesSent = 10 * (1024 + 9) ∧
    (feRun 10 (initR 10 1024, RServer.start, 0)).2.1.totalPacketsReceived = 10 ∧
    (feRun 10 (initR 10 1024, RServer.start, 0)).2.1.expectedSequence = 10 := by
  decide

/-! ## Send-failure claims (C7) -/

/-- Claim C7, counterexample: in the rate-controlled variant a single
failed send increments the loss counter, leaves every other counter
unchanged — and schedules nothing, so the sender never sends again:
three further scheduler steps change nothing.  This contradicts the
claim that a single failed send does not permanently stop the
sender. -/
theorem c7_counterexample_failure_stops_rate_sender :
    (estep false (einit 100 1024)).lostPackets = 1 ∧
    (estep false (einit 100 1024)).packetsSent = 0 ∧
    (estep false (einit 100 1024)).sendScheduled = false ∧
    erun [true, true, true] (estep false (einit 100 1024)) =
      estep false (einit 100 1024) :=
  ⟨rfl, rfl, rfl, rfl⟩

/-- Claim C7 as amended: in the rate-controlled variant a failed send
increments the loss counter and consumes a sequence number, changing
nothing else — but because only the success branch schedules the next
transmission, no further send is ever scheduled and the sender stops
permanently (any unscheduled state is a fixed point of every further
step).  In the stop-and-wait variant the channel outcome is ignored
entirely: SendPacket arms the retransmission timer and enters the
waiting state regardless, so there the timer does govern the retry. -/
theorem c7_send_failure_semantics :
    (∀ (s : ClientState), s.packetsSent < s.maxPackets →
        ClientState.sendPacket false s =
          { s with
              sequenceNumber := u32 (s.sequenceNumber + 1)
              lostPackets := u32 (s.lostPackets + 1)
              sendScheduled := false }) ∧
    (∀ (s : ClientState), s.sendScheduled = false →
        ∀ (outcomes : List Bool), erun outcomes s = s) ∧
    (∀ (s : RClient), s.nextSequence < s.maxPackets →
        (RClient.sendPacket s).1.timerArmed = true ∧
        (RClient.sendPacket s).1.waitingForAck = true) := by
  refine ⟨?_, ?_, ?_⟩
  · intro s hlt
    unfold ClientState.sendPacket
    rw [if_neg (Nat.not_le.mpr hlt)]
    rfl
  · intro s hsch outcomes
    induction outcomes with
    | nil => rfl
    | cons ok rest ih =>
      show erun rest (estep ok s) = s
      rw [show estep ok s = s by unfold estep; rw [if_neg (by simp [hsch])]]
      exact ih
  · intro s hlt
    unfold RClient.sendPacket
    rw [if_neg (Nat.not_le.mpr hlt)]
    exact ⟨rfl, rfl⟩

/-- Witness for the amended C7 at concrete inputs. -/
theorem c7_send_failure_semantics_witness :
    ClientState.sendPacket false (einit 100 1024) =
      { einit 100 1024 with
          sequenceNumber := u32 ((einit 100 1024).sequenceNumber + 1)
          lostPackets := u32 ((einit 100 1024).lostPackets + 1)
          sendScheduled := false } ∧
    erun [true, false] (ClientState.sendPacket false (einit 100 1024)) =
      ClientState.sendPacket false (einit 100 1024) ∧
    (RClient.sendPacket (initR 10 1024)).1.timerArmed = true :=
  ⟨c7_send_failure_semantics.1 (einit 100 1024) (by decide),
   c7_send_failure_semantics.2.1 (ClientState.sendPacket false (einit 100 1024))
     (by decide) [true, false],
   (c7_send_failure_semantics.2.2 (initR 10 1024) (by decide)).1⟩

/-! ## Simulated-loss cadence (C1) -/

/-- Window growth changes only cwnd and the phase flag. -/
theorem windowGrowth_fields (s : ClientState) :
    (windowGrowth s).packetsSent = s.packetsSent ∧
    (windowGrowth s).lostPackets = s.lostPackets ∧
    (windowGrowth s).maxPackets = s.maxPackets ∧
    (windowGrowth s).sendScheduled = s.sendScheduled := by
  unfold windowGrowth
  refine ⟨?_, ?_, ?_, ?_⟩ <;> (split <;> [ (dsimp only; split <;> rfl) ; rfl ])

/-- The interval update changes only the interval. -/
theorem setIntervalQ_fields (s : ClientState) :
    (setIntervalQ s).packetsSent = s.packetsSent ∧
    (setIntervalQ s).lostPackets = s.lostPackets ∧
    (setIntervalQ s).maxPackets = s.maxPackets ∧
    (setIntervalQ s).sendScheduled = s.sendScheduled :=
  ⟨rfl, rfl, rfl, rfl⟩

/-- The simulated-loss check never changes the sent counter, the
packet budget or the schedule. -/
theorem lossCheck_fields (s : ClientState) :
    (lossCheck s).packetsSent = s.packetsSent ∧
    (lossCheck s).maxPackets = s.maxPackets ∧
    (lossCheck s).sendScheduled = s.sendScheduled := by
  unfold lossCheck
  refine ⟨?_, ?_, ?_⟩ <;> (split <;> rfl)

/-- The loss counter grows by exactly two when the simulated-loss
guard holds and is untouched otherwise. -/
theorem lossCheck_lost (s : ClientState) :
    (lossCheck s).lostPackets =
      if s.packetsSent % 40 = 0 ∧ 0 < s.packetsSent
      then u32 (s.lostPackets + 2) else s.lostPackets := by
  unfold lossCheck
  split <;> rename_i hb <;>
    simp only [Bool.and_eq_true, beq_iff_eq, decide_eq_true_eq] at hb
  · rw [if_pos hb]
  · rw [if_neg hb]

/-- CongestionControl never changes the sent counter, the packet
budget or the schedule. -/
theorem congestionControl_fields (s : ClientState) :
    (congestionControl s).packetsSent = s.packetsSent ∧
    (congestionControl s).maxPackets = s.maxPackets ∧
    (congestionControl s).sendScheduled = s.sendScheduled := by
  unfold congestionControl
  refine ⟨?_, ?_, ?_⟩
  · rw [(setIntervalQ_fields _).1, (lossCheck_fields _).1, (windowGrowth_fields _).1]
  · rw [(setIntervalQ_fields _).2.2.1, (lossCheck_fields _).2.1,
      (windowGrowth_fields _).2.2.1]
  · rw [(setIntervalQ_fields _).2.2.2, (lossCheck_fields _).2.2,
      (windowGrowth_fields _).2.2.2]

/-- The loss counter across a whole CongestionControl call: two more
exactly when the sent count is a positive multiple of 40. -/
theorem congestionControl_lost (s : ClientState) :
    (congestionControl s).lostPackets =
      if s.packetsSent % 40 = 0 ∧ 0 < s.packetsSent
      then u32 (s.lostPackets + 2) else s.lostPackets := by
  unfold congestionControl
  rw [(setIntervalQ_fields _).2.1, lossCheck_lost,
    (windowGrowth_fields _).1, (windowGrowth_fields _).2.1]

/-- One successful scheduled send of the rate-controlled client, in
terms of the sent count k: the counter advances, the budget is
unchanged, the loss counter grows by two exactly when k + 1 is a
multiple of both 15 (CongestionControl runs) and 40 (the simulated
loss fires inside it), and the next send is scheduled exactly while
packets remain. -/
theorem estep_true_char (s : ClientState) (k m : Nat)
    (hps : s.packetsSent = k) (hmax : s.maxPackets = m)
    (hsch : s.sendScheduled = true) (hkm : k < m) (hm : m < 4294967296) :
    (estep true s).packetsSent = k + 1 ∧
    (estep true s).maxPackets = m ∧
    (estep true s).lostPackets =
      (if (k + 1) % 15 = 0 ∧ (k + 1) % 40 = 0 then u32 (s.lostPackets + 2)
       else s.lostPackets) ∧
    (k + 1 < m → (estep true s).sendScheduled = true) := by
  have hu : u32 (k + 1) = k + 1 := by unfold u32; omega
  unfold estep
  rw [if_pos hsch]
  unfold ClientState.sendPacket
  rw [if_neg (by simp only [hmax, hps]; exact Nat.not_le.mpr hkm)]
  dsimp only
  rw [hps, hu]
  by_cases h15 : (k + 1) % 15 = 0
  · simp only [h15, beq_self_eq_true, if_true]
    refine ⟨?_, ?_, ?_, ?_⟩
    · split <;> (dsimp only; rw [(congestionControl_fields _).1]; try rfl)
    · split <;> (dsimp only; rw [(congestionControl_fields _).2.1]; exact hmax)
    · split <;>
        (dsimp only
         rw [congestionControl_lost]
         dsimp only
         by_cases h40 : (k + 1) % 40 = 0 <;> simp [h40, h15, Nat.succ_pos])
    · intro hlt
      split
      · rfl
      · rename_i hc
        rw [(congestionControl_fields _).1, (congestionControl_fields _).2.1] at hc
        dsimp only at hc
        rw [hmax] at hc
        exact absurd hlt hc
  · simp only [beq_iff_eq, h15, if_false, if_true]
    refine ⟨?_, ?_, ?_, ?_⟩
    · split <;> rfl
    · split <;> exact hmax
    · split <;>
        (dsimp only
         rw [if_neg (fun hc => hc.1)])
    · intro hlt
      split
      · rfl
      · rename_i hc
        rw [hmax] at hc
        exact absurd hlt hc

/-- Invariant of the loss-free run of the rate-controlled client: the
sent count equals the step count, the budget is fixed, the loss
counter is twice the number of completed 120-send periods, and a next
send stays scheduled while the budget is not exhausted. -/
theorem iterSuccess_inv (m p : Nat) (hm : m < 4294967296) :
    ∀ n, n ≤ m →
      (iterSuccess m p n).packetsSent = n ∧
      (iterSuccess m p n).maxPackets = m ∧
      (iterSuccess m p n).lostPackets = 2 * (n / 120) ∧
      (n < m → (iterSuccess m p n).sendScheduled = true) := by
  intro n
  induction n with
  | zero => exact fun _ => ⟨rfl, rfl, rfl, fun _ => rfl⟩
  | succ k ih =>
    intro hk1
    obtain ⟨hps, hmax, hlost, hsch⟩ := ih (Nat.le_of_succ_le hk1)
    have hkm : k < m := hk1
    have hchar := estep_true_char (iterSuccess m p k) k m hps hmax (hsch hkm) hkm hm
    refine ⟨hchar.1, hchar.2.1, ?_, hchar.2.2.2⟩
    show (estep true (iterSuccess m p k)).lostPackets = 2 * ((k + 1) / 120)
    rw [hchar.2.2.1, hlost]
    have hbound : 2 * (k / 120) + 2 < 4294967296 := by omega
    unfold u32
    split <;> omega

set_option maxRecDepth 100000 in
/-- Claim C1, counterexample: after 40 successful sends of the
rate-controlled client with the reference tuning, no simulated-loss
event has fired: the loss counter is 0 (not 2), the window is 8 (not
4, having grown at sends 15 and 30), ssthresh is still its initial 32
and the phase is still slow start.  The loss check sits inside
CongestionControl, which runs only on every 15th send, and 40 is not a
multiple of 15. -/
theorem c1_counterexample_no_loss_at_send_40 :
    (iterSuccess 200 1024 40).lostPackets = 0 ∧
    (iterSuccess 200 1024 40).cwnd = 8 ∧
    (iterSuccess 200 1024 40).ssthresh = 32 ∧
    (iterSuccess 200 1024 40).congestionAvoidance = false :=
  ⟨rfl, rfl, rfl, rfl⟩

set_option maxRecDepth 400000 in
/-- Claim C1 as amended: the simulated-loss event fires on the sends
that are positive multiples of both 15 and 40, i.e. on every 120th
successful send, so the loss counter after n ≤ maxPackets successful
sends is 2 * (n / 120); when the event fires it sets ssthresh to
max(cwnd / 2, 4), resets cwnd to 4, returns the phase to slow start
and records two lost-packet credits.  In particular after 120 sends
with the reference tuning exactly one event has fired: the loss
credits are 2, cwnd is 4, the phase is slow start and ssthresh is 10 =
max(20 / 2, 4), where 20 is the grown window just before the event. -/
theorem c1_simulated_loss_every_120th_send :
    (∀ (t : ClientState), t.packetsSent % 40 = 0 → 0 < t.packetsSent →
        lossCheck t =
          { t with
              ssthresh := max (t.cwnd / 2) 4
              cwnd := 4
              congestionAvoidance := false
              lostPackets := u32 (t.lostPackets + 2) }) ∧
    (∀ (m p n : Nat), m < 4294967296 → n ≤ m →
        (iterSuccess m p n).lostPackets = 2 * (n / 120)) ∧
    (iterSuccess 200 1024 120).lostPackets = 2 ∧
    (iterSuccess 200 1024 120).cwnd = 4 ∧
    (iterSuccess 200 1024 120).congestionAvoidance = false ∧
    (iterSuccess 200 1024 120).ssthresh = 10 := by
  refine ⟨?_, ?_, rfl, rfl, rfl, rfl⟩
  · intro t h40 hpos
    unfold lossCheck
    rw [if_pos (by simp [h40, hpos])]
  · intro m p n hm hn
    exact (iterSuccess_inv m p hm n hn).2.2.1

/-- Witness for the amended C1: the loss-event effect at a concrete
state with 40 recorded sends, and the loss-counter formula after 40
steps of a run with budget 100. -/
theorem c1_simulated_loss_every_120th_send_witness :
    lossCheck { einit 200 1024 with packetsSent := 40 } =
      { { einit 200 1024 with packetsSent := 40 } with
          ssthresh := max ({ einit 200 1024 with packetsSent := 40 }.cwnd / 2) 4
          cwnd := 4
          congestionAvoidance := false
          lostPackets := u32 ({ einit 200 1024 with packetsSent := 40 }.lostPackets + 2) } ∧
    (iterSuccess 100 1024 40).lostPackets = 2 * (40 / 120) :=
  ⟨c1_simulated_loss_every_120th_send.1 { einit 200 1024 with packetsSent := 40 }
     (by decide) (by decide),
   c1_simulated_loss_every_120th_send.2.1 100 1024 40 (by decide) (by decide)⟩
